import Mathlib

/-!
Shallow embedding of `go-controller/pkg/factory/factory.go` (the watch
factory of ovn-kubernetes): handlers with atomic tombstones, the per-kind
informer registry, FNV-1 based event-queue sharding, delete-tombstone
unwrapping, and the `WatchFactory.addHandler` registration flow.

Go `interface{}` values relevant to the factory are modelled by `GoValue`;
runtime types (`reflect.Type`) by `GoType`.  Callback invocations on a
subscriber's `cache.ResourceEventHandler` are recorded as a trace of
`CallbackCall`s instead of running opaque functions.  Machine integers are
`Nat` with explicit `% 2 ^ 64` where the code relies on `uint64` wrapping.
-/

set_option maxHeartbeats 1000000

namespace Factory

/-- The six watched Kubernetes object kinds (the `reflect.Type` constants
`podType`, `serviceType`, `endpointsType`, `policyType`, `namespaceType`,
`nodeType` in factory.go). -/
inductive K8sKind where
  | Pod
  | Service
  | Endpoints
  | NetworkPolicy
  | Namespace
  | Node
deriving DecidableEq, Repr

/-- A Go runtime type (`reflect.Type`) as far as the factory inspects it:
one of the six watched kinds, the `cache.DeletedFinalStateUnknown`
placeholder type, or any other type. -/
inductive GoType where
  | kindType (k : K8sKind)
  | dfsuType
  | otherType
deriving DecidableEq, Repr

/-- The fields of `metav1.ObjectMeta` that factory.go reads: `Namespace`,
`Name` and `Labels`. -/
structure ObjectMeta where
  Namespace : String
  Name : String
  Labels : List (String × String)
deriving DecidableEq, Repr

/-- A Go `interface{}` value as seen by the factory: a typed Kubernetes
object carrying its `ObjectMeta`, a `cache.DeletedFinalStateUnknown`
tombstone placeholder wrapping another value, or some unrelated value. -/
inductive GoValue where
  | typed (k : K8sKind) (meta : ObjectMeta)
  | deletedFinalStateUnknown (Key : String) (Obj : GoValue)
  | other
deriving DecidableEq, Repr

/-- `reflect.TypeOf` on the values the factory handles. -/
def goTypeOf : GoValue → GoType
  | .typed k _ => .kindType k
  | .deletedFinalStateUnknown _ _ => .dfsuType
  | .other => .otherType

def podType : GoType := .kindType .Pod
def serviceType : GoType := .kindType .Service
def endpointsType : GoType := .kindType .Endpoints
def policyType : GoType := .kindType .NetworkPolicy
def namespaceType : GoType := .kindType .Namespace
def nodeType : GoType := .kindType .Node

/-- Errors returned by the factory (the `fmt.Errorf` cases in factory.go),
made structural. -/
inductive factoryError where
  /-- "event handler %d already dead" (Handler.kill). -/
  | alreadyDead (id : Nat)
  /-- "cannot get ObjectMeta from type %v" (getObjectMeta). -/
  | cannotGetMeta (t : GoType)
  /-- "couldn't get object from tombstone" (ensureObjectOnDelete). -/
  | tombstoneNotRecovered
  /-- "expected tombstone object resource type %v but got %v"
  (ensureObjectOnDelete). -/
  | tombstoneTypeMismatch (expected got : GoType)
  /-- "unknown object type %v" (WatchFactory.addHandler) and "tried to
  remove unknown object type %v event handler" (WatchFactory.removeHandler). -/
  | unknownKind (t : GoType)
deriving DecidableEq, Repr

/-- `getObjectMeta(objType, obj)` of factory.go: switches on the expected
`reflect.Type` over the six watched kinds and type-asserts `obj`; any
mismatch (including unknown expected types) falls through to the
"cannot get ObjectMeta" error. -/
def getObjectMeta (objType : GoType) (obj : GoValue) : Except factoryError ObjectMeta :=
  match objType, obj with
  | .kindType k, .typed k' m =>
      if k' = k then .ok m else .error (.cannotGetMeta objType)
  | _, _ => .error (.cannotGetMeta objType)

/-- `ensureObjectOnDelete(obj, expectedType)` of factory.go: accept `obj`
directly when its runtime type matches; otherwise it must be a
`DeletedFinalStateUnknown` whose wrapped object matches, which is then
returned; otherwise fail. -/
def ensureObjectOnDelete (obj : GoValue) (expectedType : GoType) : Except factoryError GoValue :=
  if goTypeOf obj = expectedType then .ok obj
  else
    match obj with
    | .deletedFinalStateUnknown _ inner =>
        if goTypeOf inner = expectedType then .ok inner
        else .error (.tombstoneTypeMismatch expectedType (goTypeOf inner))
    | _ => .error .tombstoneNotRecovered

/-- Constant `handlerAlive` (uint32 0) of factory.go. -/
def handlerAlive : Nat := 0
/-- Constant `handlerDead` (uint32 1) of factory.go. -/
def handlerDead : Nat := 1
/-- Constant `numEventQueues` (10) of factory.go. -/
def numEventQueues : Nat := 10

/-- `metav1.LabelSelector` as far as the factory uses it: only the
`MatchLabels` exact-match requirements (the factory never constructs
`MatchExpressions`; `metav1.LabelSelectorAsSelector` on such selectors
always succeeds). -/
structure LabelSelector where
  MatchLabels : List (String × String)
deriving DecidableEq, Repr

/-- `labels.Selector.Matches` for a `MatchLabels`-only selector: every
required key maps to the required value in the object's label set. -/
def selMatches (sel : LabelSelector) (lbls : List (String × String)) : Bool :=
  sel.MatchLabels.all fun kv =>
    match lbls.lookup kv.1 with
    | some v => v = kv.2
    | none => false

/-- The data closed over by the `filterFunc` closure built in
`WatchFactory.addHandler`: the informer's expected type, the requested
namespace and the optional label selector (`lsel == nil` is `none`). -/
structure FilterSpec where
  objType : GoType
  Namespace : String
  lsel : Option LabelSelector
deriving DecidableEq, Repr

/-- The `filterFunc` closure of `WatchFactory.addHandler` (lines 410-427):
match-all when namespace is empty and the selector is nil; otherwise
extract metadata (failure rejects the object), then check namespace
equality and selector match. -/
def filterFunc (fs : FilterSpec) (obj : GoValue) : Bool :=
  if fs.Namespace = "" && fs.lsel.isNone then
    true
  else
    match getObjectMeta fs.objType obj with
    | .error _ => false
    | .ok meta =>
        if fs.Namespace ≠ "" && meta.Namespace ≠ fs.Namespace then false
        else
          match fs.lsel with
          | some sel => if ¬ selMatches sel meta.Labels then false else true
          | none => true

/-- One recorded invocation of a subscriber's underlying
`cache.ResourceEventHandler` callback. -/
inductive CallbackCall where
  | add (obj : GoValue)
  | update (oldObj newObj : GoValue)
  | delete (obj : GoValue)
deriving DecidableEq, Repr

/-- `cache.FilteringResourceEventHandler` wrapping one subscriber: the
filter data plus the (opaque) subscriber callbacks, whose invocations are
recorded as `CallbackCall`s. -/
structure FilteringResourceEventHandler where
  FilterFunc : FilterSpec
deriving DecidableEq, Repr

/-- client-go `FilteringResourceEventHandler.OnAdd`: invoke the subscriber
iff the filter accepts the object. -/
def FilteringResourceEventHandler.OnAdd (r : FilteringResourceEventHandler)
    (obj : GoValue) : List CallbackCall :=
  if filterFunc r.FilterFunc obj then [.add obj] else []

/-- client-go `FilteringResourceEventHandler.OnUpdate`: dispatch on which
of the old/new objects pass the filter. -/
def FilteringResourceEventHandler.OnUpdate (r : FilteringResourceEventHandler)
    (oldObj newObj : GoValue) : List CallbackCall :=
  let newer := filterFunc r.FilterFunc newObj
  let older := filterFunc r.FilterFunc oldObj
  if newer && older then [.update oldObj newObj]
  else if newer && !older then [.add newObj]
  else if !newer && older then [.delete oldObj]
  else []

/-- client-go `FilteringResourceEventHandler.OnDelete`: invoke the
subscriber iff the filter accepts the object. -/
def FilteringResourceEventHandler.OnDelete (r : FilteringResourceEventHandler)
    (obj : GoValue) : List CallbackCall :=
  if filterFunc r.FilterFunc obj then [.delete obj] else []

/-- The `Handler` struct of factory.go: the filtering wrapper around the
subscriber's callbacks, the process-unique id, and the atomic tombstone
(`handlerAlive` or `handlerDead`). -/
structure Handler where
  base : FilteringResourceEventHandler
  id : Nat
  tombstone : Nat
deriving DecidableEq, Repr

/-- `Handler.OnAdd`: deliver through the filtering wrapper only while the
tombstone is `handlerAlive`. -/
def Handler.OnAdd (h : Handler) (obj : GoValue) : List CallbackCall :=
  if h.tombstone = handlerAlive then h.base.OnAdd obj else []

/-- `Handler.OnUpdate`: deliver through the filtering wrapper only while
the tombstone is `handlerAlive`. -/
def Handler.OnUpdate (h : Handler) (oldObj newObj : GoValue) : List CallbackCall :=
  if h.tombstone = handlerAlive then h.base.OnUpdate oldObj newObj else []

/-- `Handler.OnDelete`: deliver through the filtering wrapper only while
the tombstone is `handlerAlive`. -/
def Handler.OnDelete (h : Handler) (obj : GoValue) : List CallbackCall :=
  if h.tombstone = handlerAlive then h.base.OnDelete obj else []

/-- `Handler.kill`: `CompareAndSwapUint32(&tombstone, alive, dead)` — the
swap succeeds exactly when the tombstone is still `handlerAlive`;
otherwise the "already dead" error is returned and the handler is
untouched. Returns the (possibly updated) handler together with the
optional error. -/
def Handler.kill (h : Handler) : Handler × Option factoryError :=
  if h.tombstone = handlerAlive then
    ({ h with tombstone := handlerDead }, none)
  else
    (h, some (.alreadyDead h.id))

/-- UTF-8 encoding of one character (what `[]byte(string)` produces in Go,
byte values as `Nat`). -/
def utf8Encode (c : Char) : List Nat :=
  let n := c.toNat
  if n < 0x80 then [n]
  else if n < 0x800 then
    [0xC0 ||| (n >>> 6), 0x80 ||| (n &&& 0x3F)]
  else if n < 0x10000 then
    [0xE0 ||| (n >>> 12), 0x80 ||| ((n >>> 6) &&& 0x3F), 0x80 ||| (n &&& 0x3F)]
  else
    [0xF0 ||| (n >>> 18), 0x80 ||| ((n >>> 12) &&& 0x3F),
     0x80 ||| ((n >>> 6) &&& 0x3F), 0x80 ||| (n &&& 0x3F)]

/-- UTF-8 bytes of a character list. -/
def bytesOfChars : List Char → List Nat
  | [] => []
  | c :: cs => utf8Encode c ++ bytesOfChars cs

/-- The bytes `[]byte(s)` of a Go string. -/
def strBytes (s : String) : List Nat := bytesOfChars s.data

/-- FNV-1 32-bit offset basis (Go `hash/fnv`, `fnv.New32`). -/
def fnvOffset : Nat := 2166136261
/-- FNV-1 32-bit prime. -/
def fnvPrime : Nat := 16777619

/-- One FNV-1 step: multiply by the prime modulo 2^32, then xor the byte. -/
def fnvStep (h b : Nat) : Nat := (h * fnvPrime) % 2 ^ 32 ^^^ b

/-- `hash.Write(bytes)` on an FNV-1 32-bit hash state. -/
def fnvWrite (h : Nat) (bs : List Nat) : Nat := bs.foldl fnvStep h

/-- The full FNV-1 32-bit hash of a byte sequence (`fnv.New32` then
`Write` then `Sum32`). -/
def fnv32 (bs : List Nat) : Nat := fnvWrite fnvOffset bs

/-- The hash state computed by `informer.enqueueEvent` (lines 185-190):
write the namespace bytes and a "/" only when the namespace is non-empty,
then write the name bytes. -/
def nsNameHash (m : ObjectMeta) : Nat :=
  let h0 := fnvOffset
  let h1 := if m.Namespace ≠ "" then fnvWrite (fnvWrite h0 (strBytes m.Namespace)) (strBytes "/") else h0
  fnvWrite h1 (strBytes m.Name)

/-- `queueIdx := h.Sum32() % uint32(numEventQueues)` of
`informer.enqueueEvent`. -/
def queueIdxOf (m : ObjectMeta) : Nat := nsNameHash m % numEventQueues

/-- The `eventKind` enum of factory.go. -/
inductive eventKind where
  | addEvent
  | updateEvent
  | deleteEvent
deriving DecidableEq, Repr

/-- The `event` struct of factory.go; `oldObj` is a nilable
`interface{}`. -/
structure event where
  obj : GoValue
  oldObj : Option GoValue
  kind : eventKind
deriving DecidableEq, Repr

/-- The `informer` struct of factory.go: the expected object type, the
handler registry map (id → Handler), the event-queue slots (a slot is
`none` once set to nil by `shutdown`, otherwise the queued events), and
the shared informer's store contents (the mirror read by
`WatchFactory.addHandler`). -/
structure informer where
  oType : GoType
  handlers : List (Nat × Handler)
  events : List (Option (List event))
  store : List GoValue
deriving DecidableEq, Repr

/-- Insert into the `handlers` map (`i.handlers[id] = handler`): replace
an existing binding for the id, otherwise append. -/
def mapInsert (m : List (Nat × Handler)) (id : Nat) (h : Handler) : List (Nat × Handler) :=
  if (m.lookup id).isSome then
    m.map fun p => if p.1 = id then (id, h) else p
  else
    m ++ [(id, h)]

/-- `informer.addHandler`: build the alive `Handler` from the filter data
and register it in the map. -/
def informer.addHandler (i : informer) (id : Nat) (fs : FilterSpec) : Handler × informer :=
  let handler : Handler := ⟨⟨fs⟩, id, handlerAlive⟩
  (handler, { i with handlers := mapInsert i.handlers id handler })

/-- Writing a dead handler back through its pointer: every map entry
bound to this id (the alias of the killed `*Handler`) now shows the dead
tombstone. -/
def killInMap (m : List (Nat × Handler)) (id : Nat) (dead : Handler) : List (Nat × Handler) :=
  m.map fun p => if p.1 = id then (p.1, dead) else p

/-- Result of `informer.removeHandler`: the handler after the synchronous
part, the informer after the synchronous part, the map deletions that were
scheduled onto background goroutines, and the returned error. -/
structure removeOutcome where
  handler : Handler
  inf : informer
  pending : List Nat
  err : Option factoryError
deriving DecidableEq, Repr

/-- `informer.removeHandler(handler)`: call `kill`; on error return it
with nothing changed; on success the tombstone write is visible through
the map alias and the map deletion is only scheduled (a spawned goroutine),
never performed inline. -/
def informer.removeHandler (i : informer) (h : Handler) : removeOutcome :=
  match h.kill with
  | (h', none) => ⟨h', { i with handlers := killInMap i.handlers h.id h' }, [h.id], none⟩
  | (h', some e) => ⟨h', i, [], some e⟩

/-- The body of the goroutine spawned by `informer.removeHandler`: delete
the id from the map if present (absence only logs a warning). -/
def informer.runPendingDeletion (i : informer) (id : Nat) : informer :=
  { i with handlers := i.handlers.filter fun p => p.1 ≠ id }

/-- `informer.forEachHandler(obj, f)`: under the write lock, reject the
event if the object's runtime type differs from the informer's expected
type, else apply `f` to every registered handler, collecting the
subscriber calls. -/
def informer.forEachHandler (i : informer) (obj : GoValue)
    (f : Handler → List CallbackCall) : List CallbackCall :=
  if goTypeOf obj = i.oType then (i.handlers.map fun p => f p.2).flatten else []

/-- `informer.enqueueEvent(oldObj, obj, kind)`: extract metadata (failure
drops the event), pick the queue by the FNV-1 hash of the namespaced name
modulo `numEventQueues`, and send into that queue only when its slot is
not nil.  Returns the new informer together with the index of the queue a
send was performed on (`none` when the event was dropped). -/
def informer.enqueueEvent (i : informer) (oldObj : Option GoValue) (obj : GoValue)
    (kind : eventKind) : informer × Option Nat :=
  match getObjectMeta i.oType obj with
  | .error _ => (i, none)
  | .ok meta =>
      let queueIdx := queueIdxOf meta
      match i.events[queueIdx]? with
      | some (some q) =>
          ({ i with events := i.events.set queueIdx (some (q ++ [⟨obj, oldObj, kind⟩])) },
           some queueIdx)
      | _ => (i, none)

/-- The `DeleteFunc` of `informer.newFederatedHandler`: recover the real
object from a possible deletion tombstone (failure drops the event with no
handler invoked), then fan the delete out to every handler. -/
def informer.deleteFuncFederated (i : informer) (obj : GoValue) : List CallbackCall :=
  match ensureObjectOnDelete obj i.oType with
  | .error _ => []
  | .ok realObj => i.forEachHandler realObj fun h => h.OnDelete realObj

/-- Kill a handler ignoring the error, as `informer.shutdown` does
(`_ = i.removeHandler(handler)`). -/
def killQuiet (h : Handler) : Handler := (h.kill).1

/-- `informer.shutdown`: under the write lock, request removal of every
handler (the tombstone writes land; the map deletions sit in goroutines
blocked on the lock) and close every event channel, setting each slot to
nil. -/
def informer.shutdown (i : informer) : informer :=
  { i with
    handlers := i.handlers.map fun p => (p.1, killQuiet p.2)
    events := i.events.map fun _ => none }

/-- The `WatchFactory` struct of factory.go: the atomic `handlerCounter`
(a `uint64`, hence the `% 2 ^ 64` on increment) and the per-type informer
map. -/
structure WatchFactory where
  handlerCounter : Nat
  informers : List (GoType × informer)
deriving DecidableEq, Repr

/-- Observable steps of `WatchFactory.addHandler`, in execution order:
the snapshot passed to `processExisting`, the registration of the new
handler in the informer's map, and each subscriber callback fired by the
synthetic-add replay. -/
inductive traceEvent where
  | processExisting (items : List GoValue)
  | handlerRegistered (id : Nat)
  | callback (id : Nat) (c : CallbackCall)
deriving DecidableEq, Repr

/-- Update the informer bound to a type in the factory's map. -/
def setInformer (m : List (GoType × informer)) (t : GoType) (i : informer) :
    List (GoType × informer) :=
  m.map fun p => if p.1 = t then (t, i) else p

/-- `WatchFactory.addHandler(objType, namespace, lsel, funcs,
processExisting)`: fail with the unknown-type error when the kind has no
informer (state untouched); otherwise filter the store snapshot and hand
it to `processExisting` (when given), allocate the next handler id with
the atomic counter, register the handler, and replay every existing store
object as a synthetic add through the new handler.  Returns the created
handler (if any), the factory after the call, the trace of observable
steps in order, and the error (if any). -/
def WatchFactory.addHandler (wf : WatchFactory) (objType : GoType) (ns : String)
    (lsel : Option LabelSelector) (hasProcessExisting : Bool) :
    Option Handler × WatchFactory × List traceEvent × Option factoryError :=
  match (wf.informers.lookup objType) with
  | none => (none, wf, [], some (.unknownKind objType))
  | some inf =>
      let fs : FilterSpec := ⟨objType, ns, lsel⟩
      let existingItems := inf.store
      let trace1 :=
        if hasProcessExisting then
          [traceEvent.processExisting (existingItems.filter (filterFunc fs))]
        else []
      let handlerID := (wf.handlerCounter + 1) % 2 ^ 64
      let (handler, inf') := inf.addHandler handlerID fs
      let trace2 := [traceEvent.handlerRegistered handlerID]
      let synth := existingItems.flatMap fun obj =>
        (handler.OnAdd obj).map (traceEvent.callback handlerID)
      (some handler,
       { handlerCounter := handlerID, informers := setInformer wf.informers objType inf' },
       trace1 ++ trace2 ++ synth,
       none)

/-- `WatchFactory.removeHandler(objType, handler)`: dispatch to the
informer for the type, or fail with the unknown-type error. -/
def WatchFactory.removeHandler (wf : WatchFactory) (objType : GoType) (h : Handler) :
    Option removeOutcome × Option factoryError :=
  match wf.informers.lookup objType with
  | some inf => (some (inf.removeHandler h), none)
  | none => (none, some (.unknownKind objType))

/-- One registration request against the factory. -/
structure regRequest where
  objType : GoType
  ns : String
  lsel : Option LabelSelector
  hasPE : Bool
deriving DecidableEq, Repr

/-- Run a sequence of `WatchFactory.addHandler` calls, collecting the ids
of the handlers returned by the successful registrations in order. -/
def runRegistrations (wf : WatchFactory) : List regRequest → WatchFactory × List Nat
  | [] => (wf, [])
  | r :: rest =>
      let out := wf.addHandler r.objType r.ns r.lsel r.hasPE
      let tail := runRegistrations out.2.1 rest
      match out.1 with
      | some h => (tail.1, h.id :: tail.2)
      | none => (tail.1, tail.2)

/-! Concrete fixtures used by witnesses and counterexamples. -/

/-- An unfiltered pod filter spec. -/
def fsUnfiltered : FilterSpec := ⟨podType, "", none⟩

/-- A live handler with id 7. -/
def hAlive : Handler := ⟨⟨fsUnfiltered⟩, 7, handlerAlive⟩

/-- The handler `hAlive` after its tombstone transition. -/
def hDead : Handler := ⟨⟨fsUnfiltered⟩, 7, handlerDead⟩

/-- A pod in namespace ns-a. -/
def podA : GoValue := .typed .Pod ⟨"ns-a", "pod-1", []⟩

/-- A pod in namespace ns-b. -/
def podB : GoValue := .typed .Pod ⟨"ns-b", "pod-2", []⟩

/-- A pod informer whose registry map is empty. -/
def emptyPodInformer : informer := ⟨podType, [], [], []⟩

/-- A pod informer holding `hAlive` and a two-pod store. -/
def podInformer : informer := ⟨podType, [(7, hAlive)], [], [podA, podB]⟩

/-- A factory with a fresh counter and the single pod informer. -/
def wf0 : WatchFactory := ⟨0, [(podType, podInformer)]⟩

/-- Claim C1: once `kill` has successfully transitioned a handler's
tombstone from alive to dead, every subsequent `OnAdd`/`OnUpdate`/
`OnDelete` on that handler is a no-op — no subscriber callback is ever
invoked again, for any event. -/
theorem dead_handler_never_delivers (h h' : Handler) (hk : h.kill = (h', none)) :
    ∀ obj oldObj newObj : GoValue,
      h'.OnAdd obj = [] ∧ h'.OnUpdate oldObj newObj = [] ∧ h'.OnDelete obj = [] := by
  intro obj oldObj newObj
  unfold Handler.kill at hk
  split at hk
  · cases hk
    refine ⟨?_, ?_, ?_⟩ <;>
      simp [Handler.OnAdd, Handler.OnUpdate, Handler.OnDelete, handlerAlive, handlerDead]
  · cases hk

/-- Witness for C1 at a concrete killed handler and concrete events. -/
theorem dead_handler_never_delivers_witness :
    hDead.OnAdd podA = [] ∧ hDead.OnUpdate podA podB = [] ∧ hDead.OnDelete podA = [] :=
  dead_handler_never_delivers hAlive hDead (by rfl) podA podA podB

/-- Claim C4: on an alive handler the first `kill` succeeds and moves the
tombstone to dead; a second `kill` on the result fails with the
already-dead error and returns the handler unchanged. -/
theorem kill_once_then_alreadyDead (h : Handler) (ha : h.tombstone = handlerAlive) :
    (h.kill).2 = none ∧ (h.kill).1.tombstone = handlerDead ∧
    (h.kill).1.kill = ((h.kill).1, some (.alreadyDead h.id)) := by
  simp [Handler.kill, ha, handlerAlive, handlerDead]

/-- Witness for C4 at the concrete live handler `hAlive`. -/
theorem kill_once_then_alreadyDead_witness :
    hAlive.tombstone = handlerAlive ∧
    ((hAlive.kill).2 = none ∧ (hAlive.kill).1.tombstone = handlerDead ∧
      (hAlive.kill).1.kill = ((hAlive.kill).1, some (.alreadyDead hAlive.id))) :=
  ⟨rfl, kill_once_then_alreadyDead hAlive rfl⟩

/-- Counterexample to C5 as stated: `removeHandler` on an alive handler
whose id is absent from the registry map succeeds (`err = none`) instead
of failing with an unknown-handler error — the code never checks map
membership synchronously. -/
theorem removeHandler_absent_id_still_succeeds :
    emptyPodInformer.handlers.lookup hAlive.id = none ∧
    (emptyPodInformer.removeHandler hAlive).err = none := by
  constructor <;> rfl

/-- Claim C5 (amended): `removeHandler` on an alive handler succeeds
regardless of map membership — it tombstones the handler, leaves the map's
key set unchanged in the synchronous part, and only schedules the deletion
asynchronously; on a dead handler it fails with the already-dead error and
changes nothing. -/
theorem removeHandler_tombstones_and_defers_deletion (i : informer) (h : Handler) :
    (h.tombstone = handlerAlive →
      (i.removeHandler h).err = none ∧
      (i.removeHandler h).handler.tombstone = handlerDead ∧
      (i.removeHandler h).inf.handlers.map Prod.fst = i.handlers.map Prod.fst ∧
      (i.removeHandler h).pending = [h.id]) ∧
    (h.tombstone ≠ handlerAlive →
      i.removeHandler h = ⟨h, i, [], some (.alreadyDead h.id)⟩) := by
  constructor
  · intro ha
    have : i.removeHandler h =
        ⟨{ h with tombstone := handlerDead },
         { i with handlers := killInMap i.handlers h.id { h with tombstone := handlerDead } },
         [h.id], none⟩ := by
      simp [informer.removeHandler, Handler.kill, ha]
    rw [this]
    refine ⟨rfl, rfl, ?_, rfl⟩
    simp only [killInMap, List.map_map]
    apply List.map_congr_left
    intro p _
    by_cases hp : p.1 = h.id <;> simp [hp]
  · intro hd
    simp [informer.removeHandler, Handler.kill, hd]

/-- Witness for C5 (amended) at a concrete informer, exercising both the
alive and the dead branch. -/
theorem removeHandler_tombstones_and_defers_deletion_witness :
    ((podInformer.removeHandler hAlive).err = none ∧
      (podInformer.removeHandler hAlive).handler.tombstone = handlerDead ∧
      (podInformer.removeHandler hAlive).inf.handlers.map Prod.fst =
        podInformer.handlers.map Prod.fst ∧
      (podInformer.removeHandler hAlive).pending = [hAlive.id]) ∧
    podInformer.removeHandler hDead = ⟨hDead, podInformer, [], some (.alreadyDead hDead.id)⟩ :=
  ⟨(removeHandler_tombstones_and_defers_deletion podInformer hAlive).1 rfl,
   (removeHandler_tombstones_and_defers_deletion podInformer hDead).2 (by decide)⟩

/-- Claim C6: `WatchFactory.addHandler` with a type that has no informer
fails with the unknown-kind error, returns no handler, leaves the factory
state unchanged, and produces no observable step (no snapshot callback, no
registration, no synthetic add). -/
theorem addHandler_unknown_kind_no_side_effects (wf : WatchFactory) (objType : GoType)
    (ns : String) (lsel : Option LabelSelector) (hpe : Bool)
    (hl : wf.informers.lookup objType = none) :
    wf.addHandler objType ns lsel hpe = (none, wf, [], some (.unknownKind objType)) := by
  unfold WatchFactory.addHandler
  rw [hl]

/-- Witness for C6: registering a service handler on a factory that only
configured pods. -/
theorem addHandler_unknown_kind_no_side_effects_witness :
    wf0.informers.lookup serviceType = none ∧
    wf0.addHandler serviceType "ns-a" none true =
      (none, wf0, [], some (.unknownKind serviceType)) :=
  ⟨by decide, addHandler_unknown_kind_no_side_effects wf0 serviceType "ns-a" none true (by decide)⟩

/-- Claim C7: a delete event whose object already has the expected runtime
kind is used directly; a `DeletedFinalStateUnknown` placeholder is
unwrapped to its last-known object when that object's kind matches, and
fails with the tombstone type-mismatch error when it does not; and
whenever recovery fails, the federated delete path invokes no handler
callback at all — the event is simply dropped. -/
theorem delete_tombstone_unwrap_or_drop (k : K8sKind) (obj inner : GoValue)
    (key : String) (i : informer) :
    (goTypeOf obj = .kindType k → ensureObjectOnDelete obj (.kindType k) = .ok obj) ∧
    (obj = .deletedFinalStateUnknown key inner → goTypeOf inner = .kindType k →
      ensureObjectOnDelete obj (.kindType k) = .ok inner) ∧
    (obj = .deletedFinalStateUnknown key inner → goTypeOf inner ≠ .kindType k →
      ensureObjectOnDelete obj (.kindType k) =
        .error (.tombstoneTypeMismatch (.kindType k) (goTypeOf inner))) ∧
    (∀ e, ensureObjectOnDelete obj i.oType = .error e → i.deleteFuncFederated obj = []) := by
  refine ⟨?_, ?_, ?_, ?_⟩
  · intro ht
    simp [ensureObjectOnDelete, ht]
  · intro hobj hin
    subst hobj
    have h1 : goTypeOf (.deletedFinalStateUnknown key inner) = .dfsuType := rfl
    simp [ensureObjectOnDelete, h1, hin]
  · intro hobj hin
    subst hobj
    have h1 : goTypeOf (.deletedFinalStateUnknown key inner) = .dfsuType := rfl
    simp [ensureObjectOnDelete, h1, hin]
  · intro e he
    simp [informer.deleteFuncFederated, he]

/-- A `DeletedFinalStateUnknown` placeholder wrapping the ns-a pod. -/
def dfsuPod : GoValue := .deletedFinalStateUnknown "ns-a/pod-1" podA

/-- A `DeletedFinalStateUnknown` placeholder wrapping an unrelated value. -/
def dfsuBad : GoValue := .deletedFinalStateUnknown "ns-a/pod-1" .other

/-- Witness for C7 at concrete delete events: a direct pod object, a
recoverable placeholder, an unrecoverable placeholder, and the dropped
event on the federated delete path. -/
theorem delete_tombstone_unwrap_or_drop_witness :
    ensureObjectOnDelete podA (.kindType .Pod) = .ok podA ∧
    ensureObjectOnDelete dfsuPod (.kindType .Pod) = .ok podA ∧
    ensureObjectOnDelete dfsuBad (.kindType .Pod) =
      .error (.tombstoneTypeMismatch (.kindType .Pod) (goTypeOf .other)) ∧
    podInformer.deleteFuncFederated dfsuBad = [] :=
  ⟨(delete_tombstone_unwrap_or_drop .Pod podA .other "" podInformer).1 (by decide),
   (delete_tombstone_unwrap_or_drop .Pod dfsuPod podA "ns-a/pod-1" podInformer).2.1 rfl
     (by decide),
   (delete_tombstone_unwrap_or_drop .Pod dfsuBad .other "ns-a/pod-1" podInformer).2.2.1 rfl
     (by decide),
   (delete_tombstone_unwrap_or_drop .Pod dfsuBad .other "ns-a/pod-1" podInformer).2.2.2
     (.tombstoneTypeMismatch podType .otherType) rfl⟩

/-- Claim C9: after `shutdown` has closed the event channels and set every
slot to nil, `enqueueEvent` on that informer is a no-op: the state is
unchanged and no send is performed (so a send on a closed channel is never
attempted). -/
theorem enqueue_after_shutdown_is_noop (i : informer) (oldObj : Option GoValue)
    (obj : GoValue) (k : eventKind) :
    (i.shutdown).enqueueEvent oldObj obj k = (i.shutdown, none) := by
  unfold informer.enqueueEvent
  cases hm : getObjectMeta (i.shutdown).oType obj with
  | error e => rfl
  | ok meta =>
      dsimp only
      have hev : (i.shutdown).events[queueIdxOf meta]? =
          (i.events[queueIdxOf meta]?).map fun _ => none := by
        show (i.events.map fun _ => none)[queueIdxOf meta]? = _
        exact List.getElem?_map _ _ _
      rcases ho : i.events[queueIdxOf meta]? with _ | x
      · have h2 : (i.shutdown).events[queueIdxOf meta]? = none := by
          rw [hev, ho]; rfl
        rw [h2]
      · have h2 : (i.shutdown).events[queueIdxOf meta]? = some none := by
          rw [hev, ho]; rfl
        rw [h2]

/-- Claim C10: the registration filter accepts every object when both the
namespace and the selector are absent (even objects whose metadata cannot
be extracted), and rejects any object whose metadata extraction fails as
soon as a namespace or a selector is given. -/
theorem filterFunc_matchAll_vs_filtered (objType : GoType) (ns : String)
    (lsel : Option LabelSelector) (obj : GoValue) (e : factoryError) :
    (ns = "" ∧ lsel = none → filterFunc ⟨objType, ns, lsel⟩ obj = true) ∧
    (¬ (ns = "" ∧ lsel = none) → getObjectMeta objType obj = .error e →
      filterFunc ⟨objType, ns, lsel⟩ obj = false) := by
  constructor
  · rintro ⟨hns, hsel⟩
    subst hns; subst hsel
    simp [filterFunc]
  · intro hnot hmeta
    have hcond : (ns = "" && lsel.isNone) = false := by
      rcases lsel with _ | sel
      · simp_all
      · simp
    simp [filterFunc, hcond, hmeta]

/-- Witness for C10: the match-all filter accepts the metadata-less value
`GoValue.other`, while a namespace-filtered handler rejects it. -/
theorem filterFunc_matchAll_vs_filtered_witness :
    filterFunc ⟨podType, "", none⟩ GoValue.other = true ∧
    filterFunc ⟨podType, "ns-a", none⟩ GoValue.other = false :=
  ⟨(filterFunc_matchAll_vs_filtered podType "" none .other (.cannotGetMeta podType)).1
      ⟨rfl, rfl⟩,
   (filterFunc_matchAll_vs_filtered podType "ns-a" none .other (.cannotGetMeta podType)).2
      (by decide) rfl⟩

/-- Byte encoding distributes over character-list concatenation. -/
theorem bytesOfChars_append (a b : List Char) :
    bytesOfChars (a ++ b) = bytesOfChars a ++ bytesOfChars b := by
  induction a with
  | nil => rfl
  | cons c cs ih => simp [bytesOfChars, ih]

/-- Byte encoding distributes over string concatenation. -/
theorem strBytes_append (s t : String) : strBytes (s ++ t) = strBytes s ++ strBytes t := by
  rcases s with ⟨a⟩
  rcases t with ⟨b⟩
  show bytesOfChars (a ++ b) = bytesOfChars a ++ bytesOfChars b
  exact bytesOfChars_append a b

/-- Writing two byte runs into an FNV-1 state equals writing their
concatenation. -/
theorem fnvWrite_append (h : Nat) (a b : List Nat) :
    fnvWrite h (a ++ b) = fnvWrite (fnvWrite h a) b := by
  simp [fnvWrite, List.foldl_append]

/-- The "namespace/name" string of an object: the plain name for
cluster-scoped objects (empty namespace), otherwise namespace, "/",
name. -/
def nsNameKey (m : ObjectMeta) : String :=
  if m.Namespace = "" then m.Name else m.Namespace ++ "/" ++ m.Name

/-- Claim C2: the shard index used by `enqueueEvent` is the FNV-1 hash of
the object's namespace/name string reduced modulo the shard count 10; it
is always below 10; it depends only on the namespace and the name (so a
deleted and re-added identity routes identically); and any send performed
by `enqueueEvent` goes to exactly that shard. -/
theorem shard_index_pure_and_bounded (m m' : ObjectMeta) (i : informer)
    (oldObj : Option GoValue) (obj : GoValue) (k : eventKind) :
    queueIdxOf m = fnv32 (strBytes (nsNameKey m)) % numEventQueues ∧
    queueIdxOf m < 10 ∧
    (m'.Namespace = m.Namespace → m'.Name = m.Name → queueIdxOf m' = queueIdxOf m) ∧
    (getObjectMeta i.oType obj = .ok m →
      (i.enqueueEvent oldObj obj k).2 = none ∨
      (i.enqueueEvent oldObj obj k).2 = some (queueIdxOf m)) := by
  refine ⟨?_, ?_, ?_, ?_⟩
  · by_cases hns : m.Namespace = ""
    · simp [queueIdxOf, nsNameHash, nsNameKey, fnv32, hns]
    · simp only [queueIdxOf, nsNameHash, nsNameKey, fnv32, hns, if_neg, ite_false,
        ne_eq, not_false_iff, if_true]
      rw [strBytes_append, strBytes_append, fnvWrite_append, fnvWrite_append]
  · exact Nat.mod_lt _ (by norm_num [numEventQueues])
  · intro h1 h2
    simp [queueIdxOf, nsNameHash, h1, h2]
  · intro hm
    unfold informer.enqueueEvent
    rw [hm]
    dsimp only
    rcases hq : i.events[queueIdxOf m]? with _ | (_ | q)
    · exact Or.inl rfl
    · exact Or.inl rfl
    · exact Or.inr rfl

/-- An ns-a pod with labels, same identity as `podA`. -/
def podA' : ObjectMeta := ⟨"ns-a", "pod-1", [("app", "web")]⟩

/-- Witness for C2 at the concrete identity ns-a/pod-1, re-added with
different labels, enqueued on the concrete pod informer. -/
theorem shard_index_pure_and_bounded_witness :
    queueIdxOf ⟨"ns-a", "pod-1", []⟩ =
      fnv32 (strBytes (nsNameKey ⟨"ns-a", "pod-1", []⟩)) % numEventQueues ∧
    queueIdxOf ⟨"ns-a", "pod-1", []⟩ < 10 ∧
    queueIdxOf podA' = queueIdxOf ⟨"ns-a", "pod-1", []⟩ ∧
    ((podInformer.enqueueEvent none podA .addEvent).2 = none ∨
      (podInformer.enqueueEvent none podA .addEvent).2 =
        some (queueIdxOf ⟨"ns-a", "pod-1", []⟩)) :=
  have h := shard_index_pure_and_bounded ⟨"ns-a", "pod-1", []⟩ podA' podInformer
    none podA .addEvent
  ⟨h.1, h.2.1, h.2.2.1 rfl rfl, h.2.2.2 rfl⟩

/-- Mapping a guarded singleton over a list is filtering then mapping. -/
theorem flatMap_if_singleton {α β : Type} (p : α → Bool) (f : α → β) (l : List α) :
    (l.flatMap fun a => if p a then [f a] else []) = (l.filter p).map f := by
  induction l with
  | nil => rfl
  | cons a t ih =>
      by_cases hp : p a <;> simp [hp, ih, List.filter_cons]

/-- Claim C3: registering a filtered handler with a snapshot callback
produces, in order: the snapshot callback receiving exactly the
filter-matching store objects, then the registration of the handler in
the registry, then one synthetic add to the subscriber for each matching
store object and no others. -/
theorem registration_snapshot_then_synthetic_adds (wf : WatchFactory) (objType : GoType)
    (ns : String) (lsel : Option LabelSelector) (inf : informer)
    (hl : wf.informers.lookup objType = some inf) (_hns : ns ≠ "") :
    (wf.addHandler objType ns lsel true).2.2.1 =
      traceEvent.processExisting (inf.store.filter (filterFunc ⟨objType, ns, lsel⟩)) ::
      traceEvent.handlerRegistered ((wf.handlerCounter + 1) % 2 ^ 64) ::
      (inf.store.filter (filterFunc ⟨objType, ns, lsel⟩)).map
        (fun o => traceEvent.callback ((wf.handlerCounter + 1) % 2 ^ 64) (.add o)) := by
  unfold WatchFactory.addHandler
  rw [hl]
  dsimp only [informer.addHandler]
  have honadd : ∀ obj : GoValue,
      ((Handler.OnAdd ⟨⟨⟨objType, ns, lsel⟩⟩, (wf.handlerCounter + 1) % 2 ^ 64, handlerAlive⟩
          obj).map (traceEvent.callback ((wf.handlerCounter + 1) % 2 ^ 64))) =
        if filterFunc ⟨objType, ns, lsel⟩ obj then
          [traceEvent.callback ((wf.handlerCounter + 1) % 2 ^ 64) (.add obj)]
        else [] := by
    intro obj
    unfold Handler.OnAdd FilteringResourceEventHandler.OnAdd
    by_cases hf : filterFunc ⟨objType, ns, lsel⟩ obj <;> simp [hf]
  simp only [honadd, if_pos rfl, flatMap_if_singleton]
  rfl

/-- Witness for C3: a pod registration filtered to ns-a against the
two-pod store (one pod in ns-a, one in ns-b). -/
theorem registration_snapshot_then_synthetic_adds_witness :
    (wf0.addHandler podType "ns-a" none true).2.2.1 =
      traceEvent.processExisting (podInformer.store.filter (filterFunc ⟨podType, "ns-a", none⟩)) ::
      traceEvent.handlerRegistered ((wf0.handlerCounter + 1) % 2 ^ 64) ::
      (podInformer.store.filter (filterFunc ⟨podType, "ns-a", none⟩)).map
        (fun o => traceEvent.callback ((wf0.handlerCounter + 1) % 2 ^ 64) (.add o)) :=
  registration_snapshot_then_synthetic_adds wf0 podType "ns-a" none podInformer rfl
    (by decide)

/-- `addHandler` on an unconfigured type: error, state untouched. -/
theorem addHandler_lookup_none (wf : WatchFactory) (objType : GoType) (ns : String)
    (lsel : Option LabelSelector) (hpe : Bool)
    (hl : wf.informers.lookup objType = none) :
    wf.addHandler objType ns lsel hpe = (none, wf, [], some (.unknownKind objType)) := by
  unfold WatchFactory.addHandler
  rw [hl]

/-- `addHandler` on a configured type returns a handler carrying the
incremented counter as its id, and stores that counter value back. -/
theorem addHandler_lookup_some (wf : WatchFactory) (objType : GoType) (ns : String)
    (lsel : Option LabelSelector) (hpe : Bool) (inf : informer)
    (hl : wf.informers.lookup objType = some inf) :
    ∃ hd, (wf.addHandler objType ns lsel hpe).1 = some hd ∧
      hd.id = (wf.handlerCounter + 1) % 2 ^ 64 ∧
      (wf.addHandler objType ns lsel hpe).2.1.handlerCounter =
        (wf.handlerCounter + 1) % 2 ^ 64 := by
  unfold WatchFactory.addHandler
  rw [hl]
  exact ⟨_, rfl, rfl, rfl⟩

/-- Invariant of `runRegistrations` as long as the `uint64` counter does
not wrap: every returned id lies strictly between the starting counter and
the final counter, the counter never decreases and grows by at most one
per request, and the returned ids are strictly increasing in order. -/
theorem runRegistrations_invariant (reqs : List regRequest) (wf : WatchFactory)
    (hov : wf.handlerCounter + reqs.length < 2 ^ 64) :
    (∀ id ∈ (runRegistrations wf reqs).2,
        wf.handlerCounter < id ∧ id ≤ (runRegistrations wf reqs).1.handlerCounter) ∧
    wf.handlerCounter ≤ (runRegistrations wf reqs).1.handlerCounter ∧
    (runRegistrations wf reqs).1.handlerCounter ≤ wf.handlerCounter + reqs.length ∧
    (runRegistrations wf reqs).2.Pairwise (· < ·) := by
  induction reqs generalizing wf with
  | nil => simp [runRegistrations]
  | cons r rest ih =>
      have hlen : (r :: rest).length = rest.length + 1 := by simp
      cases hl : wf.informers.lookup r.objType with
      | none =>
          have he := addHandler_lookup_none wf r.objType r.ns r.lsel r.hasPE hl
          have hov' : wf.handlerCounter + rest.length < 2 ^ 64 := by
            rw [hlen] at hov; omega
          have hrec := ih wf hov'
          have hrw : runRegistrations wf (r :: rest) = runRegistrations wf rest := by
            simp only [runRegistrations, he]
          rw [hrw]
          refine ⟨hrec.1, hrec.2.1, ?_, hrec.2.2.2⟩
          rw [hlen]; omega
      | some inf =>
          obtain ⟨hd, hhd, hid, hc⟩ :=
            addHandler_lookup_some wf r.objType r.ns r.lsel r.hasPE inf hl
          have hmod : (wf.handlerCounter + 1) % 2 ^ 64 = wf.handlerCounter + 1 := by
            apply Nat.mod_eq_of_lt
            rw [hlen] at hov; omega
          have hov' : (wf.addHandler r.objType r.ns r.lsel r.hasPE).2.1.handlerCounter
              + rest.length < 2 ^ 64 := by
            rw [hc, hmod]; rw [hlen] at hov; omega
          have hrec := ih (wf.addHandler r.objType r.ns r.lsel r.hasPE).2.1 hov'
          have hrw : runRegistrations wf (r :: rest) =
              ((runRegistrations (wf.addHandler r.objType r.ns r.lsel r.hasPE).2.1 rest).1,
               hd.id ::
                 (runRegistrations (wf.addHandler r.objType r.ns r.lsel r.hasPE).2.1 rest).2) := by
            simp only [runRegistrations, hhd]
          rw [hrw]
          rw [hc, hmod] at hrec
          rw [hid, hmod]
          dsimp only
          refine ⟨?_, ?_, ?_, ?_⟩
          · intro id hmem
            rcases List.mem_cons.mp hmem with heq | hmem'
            · subst heq
              exact ⟨Nat.lt_succ_self _, le_trans (Nat.le_refl _) hrec.2.1⟩
            · have := hrec.1 id hmem'
              exact ⟨by omega, this.2⟩
          · exact le_trans (Nat.le_succ _) hrec.2.1
          · rw [hlen]; omega
          · refine List.Pairwise.cons ?_ hrec.2.2.2
            intro id hmem
            exact (hrec.1 id hmem).1

/-- Claim C8: on one factory, as long as the 64-bit counter does not wrap,
the handler ids returned by a sequence of registrations are strictly
increasing in order of allocation, and no two handlers share an id. -/
theorem handler_ids_strictly_increasing (wf : WatchFactory) (reqs : List regRequest)
    (hov : wf.handlerCounter + reqs.length < 2 ^ 64) :
    (runRegistrations wf reqs).2.Pairwise (· < ·) ∧
    (runRegistrations wf reqs).2.Nodup :=
  have h := runRegistrations_invariant reqs wf hov
  ⟨h.2.2.2, h.2.2.2.imp fun hlt => Nat.ne_of_lt hlt⟩

/-- Three registration requests: two valid pod registrations around one
failing service registration. -/
def reqsW : List regRequest :=
  [⟨podType, "", none, false⟩, ⟨serviceType, "", none, false⟩, ⟨podType, "ns-a", none, true⟩]

/-- Witness for C8 on the concrete factory with a pod informer: the ids
handed out across the request sequence are strictly increasing and
duplicate-free. -/
theorem handler_ids_strictly_increasing_witness :
    (runRegistrations wf0 reqsW).2.Pairwise (· < ·) ∧
    (runRegistrations wf0 reqsW).2.Nodup :=
  handler_ids_strictly_increasing wf0 reqsW (by norm_num [wf0, reqsW])

end Factory
